import Mathlib

/-!
Verification of the Proauc short-video pipeline.

Shallow embedding of the repository's own logic:
* `fetchers/youtube_fetcher.py` — ISO-8601 duration parsing, candidate
  filtering and selection, the seen-videos ledger;
* `editor.py` — dynamic font sizing, the clip-acceptance loop of
  `compose_short`, caption fallback, and the final title attachment;
* `main.py` — the keyword arguments of the pipeline's call into the finder.

Python floats are modelled as exact rationals (`ℚ`), `int()` on the
nonnegative values that occur here as `Int.floor`, machine strings as
Lean `String` (ASCII behaviour for `str.lower()` and `\d`), and fallible
Python code as `Except`.
-/

namespace Proauc

/-- Python runtime errors that the embedded fragments can raise. -/
inductive PyError where
  | typeError
  | attributeError
  | runtimeError (msg : String)
deriving DecidableEq

/-! ## Keyword-argument binding of the finder call (`main.py` line 20) -/

/-- Parameter names of `search_youtube_short_videos` as declared in
`fetchers/youtube_fetcher.py` (lines 44-50): `tags`, `max_results`,
`max_total_duration`, `min_likes`, `max_clips`.  There is no `min_clips`
parameter. -/
def search_youtube_param_names : List String :=
  ["tags", "max_results", "max_total_duration", "min_likes", "max_clips"]

/-- Keyword arguments that `main.main` passes to the finder
(`main.py` lines 20-26). -/
def main_search_call_kwargs : List String :=
  ["tags", "max_results", "max_total_duration", "min_clips", "max_clips"]

/-- Python call binding for keyword arguments: a call succeeds only when
every supplied keyword names a declared parameter; an unexpected keyword
argument raises `TypeError` before the body runs. -/
def bindKwargs (params kwargs : List String) : Except PyError Unit :=
  if kwargs.all (fun k => params.contains k) then Except.ok () else Except.error PyError.typeError

/-! ## ISO-8601 duration parsing (`youtube_fetcher.parse_iso_duration`) -/

/-- Value of a decimal digit string, as Python's `int` computes it. -/
def digitsToNat (ds : List Char) : ℕ :=
  ds.foldl (fun a c => 10 * a + (c.toNat - 48)) 0

/-- One optional field `(?:(\d+)X)?` of the regex
`PT(?:(\d+)H)?(?:(\d+)M)?(?:(\d+)S)?`: the group matches exactly when a
nonempty maximal digit run at the current position is followed directly by
the marker character (backtracking inside `\d+` cannot help, since any
shorter digit run is followed by a digit, not the marker).  On a match the
field value and the remainder after the marker are returned; otherwise the
field is 0 and the position is unchanged. -/
def isoField (marker : Char) (cs : List Char) : ℕ × List Char :=
  let ds := cs.takeWhile Char.isDigit
  let rest := cs.dropWhile Char.isDigit
  if ds ≠ [] ∧ rest.head? = some marker then (digitsToNat ds, rest.tail) else (0, cs)

/-- Embedding of `parse_iso_duration` (`youtube_fetcher.py` lines 14-22):
`re.match` anchors the pattern at the start of the string only, so the
match fails (returning 0) exactly when the string does not start with
`PT`; otherwise the three optional fields are read greedily in order and
any trailing characters are ignored. -/
def parse_iso_duration (s : String) : ℕ :=
  match s.data with
  | 'P' :: 'T' :: rest =>
    let hm := isoField 'H' rest
    let mm := isoField 'M' hm.2
    let sm := isoField 'S' mm.2
    hm.1 * 3600 + mm.1 * 60 + sm.1
  | _ => 0

/-- Modelled from the spec: a duration string is well formed when the whole
string matches the spec's pattern `PT#H#M#S` with all three fields
optional (`PT` followed by optional digits-`H`, digits-`M`, digits-`S`
and nothing further).  Greedy field reading decides this grammar: a field
is present in a grammar derivation exactly when a nonempty digit run
followed by the field's marker stands at the current position. -/
def specWellFormedIso (s : String) : Bool :=
  match s.data with
  | 'P' :: 'T' :: rest =>
    (isoField 'S' (isoField 'M' (isoField 'H' rest).2).2).2.isEmpty
  | _ => false

/-! ## Python string helpers used by the finder's tag filter -/

/-- Embedding of `str.lower()` restricted to the basic latin range
(`Char.toLower` maps exactly `A`-`Z` to `a`-`z`). -/
def pyLower (s : String) : String :=
  ⟨s.data.map Char.toLower⟩

/-- Embedding of Python's substring test `needle in hay`. -/
def pyIn (needle hay : String) : Bool :=
  decide (needle.data <:+: hay.data)

/-! ## Dynamic font sizing (`editor.dynamic_font_size`, lines 28-33) -/

/-- Embedding of `dynamic_font_size(text, base_size, max_width, char_limit)`:
text no longer than `char_limit` keeps `base_size`; otherwise the size is
`int(base_size * (0.8 + 0.2 * min(1.0, char_limit / len(text))))`, with the
float arithmetic modelled exactly in `ℚ` and `int()` as `Int.floor` (the
value is nonnegative).  `max_width` is accepted and never used, as in the
source. -/
def dynamic_font_size (text : String) (base_size : ℕ) (max_width : ℕ) (char_limit : ℕ) : ℤ :=
  if text.length ≤ char_limit then
    (base_size : ℤ)
  else
    let shrink_factor : ℚ := min 1 ((char_limit : ℚ) / (text.length : ℚ))
    Int.floor ((base_size : ℚ) * (8 / 10 + 2 / 10 * shrink_factor))

/-! ## Clip Finder (`youtube_fetcher.search_youtube_short_videos`, lines 98-144) -/

/-- A video as returned by the platform's batched detail call:
identifier, snippet title, snippet tags, ISO-8601 duration string,
like count (Python reads `statistics.likeCount` with default 0 and
converts with `int`), publication timestamp. -/
structure RawVideo where
  videoId : String
  title : String
  vidTags : List String
  durationIso : String
  likeCount : ℕ
  publishedAt : String
deriving DecidableEq

/-- A member of the finder's Selection Set, the dict built at
`youtube_fetcher.py` lines 121-129. -/
structure Item where
  title : String
  videoId : String
  url : String
  duration : ℕ
  publishedAt : String
  likeCount : ℕ
  source : String
deriving DecidableEq

/-- Duration of a candidate in seconds, `parse_iso_duration(vid["contentDetails"]["duration"])`. -/
def durOf (v : RawVideo) : ℕ :=
  parse_iso_duration v.durationIso

/-- The string `(title + " " + " ".join(tags_in_video)).lower()` against
which the query tags are matched (`youtube_fetcher.py` lines 117-118). -/
def tags_combined (v : RawVideo) : String :=
  pyLower (v.title ++ " " ++ String.intercalate " " v.vidTags)

/-- The conjunction of the four `continue` filters of the selection loop,
in source order: not already in the seen-videos ledger; at least
`min_likes` likes; duration neither 0 nor above 58; some query tag occurs
in the lowered title-and-tags string. -/
def keepVideo (tags : List String) (seen : Finset String) (min_likes : ℕ) (v : RawVideo) : Bool :=
  !(decide (v.videoId ∈ seen)) &&
  !(decide (v.likeCount < min_likes)) &&
  !(decide (durOf v = 0) || decide (58 < durOf v)) &&
  tags.any (fun t => pyIn t (tags_combined v))

/-- The Selection Set entry built for a surviving candidate. -/
def mkItem (v : RawVideo) : Item :=
  { title := v.title
    videoId := v.videoId
    url := "https://www.youtube.com/watch?v=" ++ v.videoId
    duration := durOf v
    publishedAt := v.publishedAt
    likeCount := v.likeCount
    source := "youtube" }

/-- The `items` list after the filtering loop: one entry per video of the
detail response that passes every filter, in response order. -/
def filterVideos (tags : List String) (seen : Finset String) (min_likes : ℕ)
    (videos : List RawVideo) : List Item :=
  (videos.filter (keepVideo tags seen min_likes)).map mkItem

/-- Two candidates of 58 seconds each that pass every filter; used to show
that no duration-sum constraint is enforced by the variant-B selection. -/
def demoVideo (i : String) : RawVideo :=
  { videoId := i, title := "a", vidTags := [], durationIso := "PT58S",
    likeCount := 1000, publishedAt := "2020-01-01T00:00:00Z" }

/-- A concrete detail response with two 58-second candidates. -/
def demoVideos : List RawVideo :=
  [demoVideo "v1", demoVideo "v2"]

/-! ## Seen-videos ledger (`youtube_fetcher.py` lines 25-40)

The ledger file holds a JSON array of id strings; a JSON array of strings
round-trips to the same list, so the file content is modelled as
`Option (List String)` (`none` for a missing or undecodable file). -/

/-- Embedding of `save_seen_videos`: `json.dump(list(video_ids), f)` writes
each element of the id set exactly once, in the set's unspecified
iteration order; a canonical enumeration is fixed here and the round-trip
theorem quantifies over every reordering of it. -/
def save_seen_videos (video_ids : Finset String) : List String :=
  video_ids.sort (· ≤ ·)

/-- Embedding of `load_seen_videos`: `set(json.load(f))` on a readable
file, the empty set for a missing file or a `json.JSONDecodeError`. -/
def load_seen_videos (file : Option (List String)) : Finset String :=
  match file with
  | some ids => ids.toFinset
  | none => ∅

/-! ## Composer (`editor.compose_short`, lines 136-199) -/

/-- `config.MAX_TOTAL_DURATION`, the total-duration ceiling in seconds. -/
def MAX_TOTAL_DURATION : ℚ := 58

/-- The caption chosen for clip `i` (0-based):
`short_labels[i] if i < len(short_labels) else f"CLIP {i+1}"`
(`editor.py` line 165). -/
def labelAt (short_labels : List String) (i : ℕ) : String :=
  match short_labels.get? i with
  | some l => l
  | none => "CLIP " ++ toString (i + 1)

/-- A clip accepted by the composition loop: its position in `clip_paths`,
the duration it contributes to the output, and its caption. -/
structure Accepted where
  idx : ℕ
  dur : ℚ
  label : String
deriving DecidableEq

/-- Embedding of the clip-acceptance loop of `compose_short`
(`editor.py` lines 156-171).  For each clip: break when
`remaining = MAX_TOTAL_DURATION - total` is no longer positive; compute
`max_clip = min(15, remaining)` and the trimmed duration
`min(clip.duration, max_clip)` — which the source then discards, because
`vclip = make_vertical_clip(path)` reopens the file at full duration and
the labelled composite keeps that duration (moviepy's resize, crop and
`CompositeVideoClip` with an equal-duration text layer preserve it); the
accepted clip therefore contributes its full duration to `total`. -/
def buildClips (short_labels : List String) : ℕ → ℚ → List ℚ → List Accepted
  | _, _, [] => []
  | i, total, d :: ds =>
    let remaining := MAX_TOTAL_DURATION - total
    if remaining ≤ 0 then
      []
    else
      let max_clip := min 15 remaining
      let _trimmed_duration := min d max_clip
      { idx := i, dur := d, label := labelAt short_labels i } ::
        buildClips short_labels (i + 1) (total + d) ds

/-- The external collaborators `compose_short` calls, as oracles: the
duration moviepy reports for a file, Whisper transcription (`none` for a
raised exception, which the source replaces by `""`), TinyLlama caption
and title generation, and whether `write_videofile` succeeds. -/
structure ComposeOracle where
  clipDuration : String → ℚ
  transcribe : String → Option String
  genLabels : List String → List String
  genTitle : List String → String
  renderOk : List Accepted → String → Bool

/-- The observable artefacts of one `compose_short` run: the transcripts,
the generated captions and main title, the accepted clips, and the value
returned to the caller (or the error raised). -/
structure ComposeRun where
  transcripts : List String
  short_labels : List String
  main_title : String
  accepted : List Accepted
  result : Except PyError String

/-- `config.OUTPUT_DIR`, joined with the output filename by `os.path.join`. -/
def OUTPUT_DIR : String := "output"

/-- Embedding of Python attribute assignment on a `str` instance: built-in
strings have no `__dict__`, so `output_path.ai_generated_title = ...`
raises `AttributeError` unconditionally. -/
def str_setattr (obj attr val : String) : Except PyError Unit :=
  Except.error PyError.attributeError

/-- Embedding of `compose_short(clip_paths, labels, output_filename)`
(`editor.py` lines 136-199): transcribe every clip (an exception becomes
an empty transcript), generate captions and the main title from the
transcripts, run the acceptance loop, raise `RuntimeError` when no clip
was accepted, render, and finally attach the generated title to the
output path string — which raises `AttributeError`.  The `labels`
parameter is bound and never read, exactly as in the source. -/
def compose_short (o : ComposeOracle) (clip_paths : List String)
    (labels : Option (List String)) (output_filename : String) : ComposeRun :=
  let transcripts := clip_paths.map (fun p => (o.transcribe p).getD "")
  let short_labels := o.genLabels transcripts
  let main_title := o.genTitle transcripts
  let accepted := buildClips short_labels 0 0 (clip_paths.map o.clipDuration)
  let result : Except PyError String :=
    if accepted.isEmpty then
      Except.error (PyError.runtimeError "No valid clips to compose.")
    else
      let output_path := OUTPUT_DIR ++ "/" ++ output_filename
      if o.renderOk accepted output_path then
        Except.map (fun _ => output_path) (str_setattr output_path "ai_generated_title" main_title)
      else
        Except.error (PyError.runtimeError "write_videofile failed")
  { transcripts := transcripts
    short_labels := short_labels
    main_title := main_title
    accepted := accepted
    result := result }

/-- A concrete oracle: every clip is 20 seconds long, transcription and
generation succeed, the caption generator returns no lines, and rendering
succeeds. -/
def composeDemoOracle : ComposeOracle :=
  { clipDuration := fun _ => 20
    transcribe := fun _ => some "hello"
    genLabels := fun _ => []
    genTitle := fun _ => "DEMO TITLE"
    renderOk := fun _ _ => true }

/-- A 20-character text. -/
def text20 : String := "aaaaaaaaaaaaaaaaaaaa"

/-- A 40-character text. -/
def text40 : String := "aaaaaaaaaaaaaaaaaaaaaaaaaaaaaaaaaaaaaaaa"

/-! ## Helper lemmas -/

/-- Basic-latin lowering is idempotent. -/
theorem toLower_toLower (c : Char) : c.toLower.toLower = c.toLower := by
  unfold Char.toLower
  by_cases h : c.toNat ≥ 65 ∧ c.toNat ≤ 90
  · rw [if_pos h]
    obtain ⟨h1, h2⟩ := h
    set n := c.toNat with hn
    interval_cases n <;> decide
  · rw [if_neg h, if_neg h]

/-- If a needle occurs in an already-lowered haystack then its lowered form
occurs there as well, so the source's one-sided check
`tag in tags_combined` implies a case-insensitive substring match. -/
theorem pyIn_pyLower (t s : String) (h : pyIn t (pyLower s) = true) :
    pyIn (pyLower t) (pyLower s) = true := by
  rw [pyIn, decide_eq_true_iff] at h ⊢
  have h2 := h.map Char.toLower
  have e : (pyLower s).data.map Char.toLower = (pyLower s).data := by
    show (s.data.map Char.toLower).map Char.toLower = s.data.map Char.toLower
    rw [List.map_map]
    exact List.map_congr_left fun a _ => toLower_toLower a
  rw [e] at h2
  exact h2

/-- Acceptance invariant of the composition loop: a clip is accepted only
while the accumulated duration (initial `total` plus the full durations of
the clips accepted before it) is still strictly below the ceiling. -/
theorem buildClips_total_lt (short_labels : List String) :
    ∀ (durs : List ℚ) (i : ℕ) (total : ℚ) (k : ℕ),
      k < (buildClips short_labels i total durs).length →
      total + (((buildClips short_labels i total durs).take k).map Accepted.dur).sum
        < MAX_TOTAL_DURATION := by
  intro durs
  induction durs with
  | nil =>
    intro i total k hk
    simp [buildClips] at hk
  | cons d ds ih =>
    intro i total k hk
    simp only [buildClips] at hk ⊢
    by_cases h : MAX_TOTAL_DURATION - total ≤ 0
    · rw [if_pos h] at hk
      simp at hk
    · rw [if_neg h] at hk ⊢
      have htot : total < MAX_TOTAL_DURATION := by
        have := not_le.mp h
        linarith
      cases k with
      | zero => simpa using htot
      | succ k' =>
        rw [List.length_cons] at hk
        have hk' : k' < (buildClips short_labels (i + 1) (total + d) ds).length := by omega
        have hrec := ih (i + 1) (total + d) k' hk'
        simp only [List.take_succ_cons, List.map_cons, List.sum_cons]
        linarith

/-- Every clip the loop accepts at an index beyond the generated caption
list is captioned with the synthesized placeholder. -/
theorem label_of_mem_buildClips (short_labels : List String) :
    ∀ (durs : List ℚ) (i : ℕ) (total : ℚ) (a : Accepted),
      a ∈ buildClips short_labels i total durs →
      short_labels.length ≤ a.idx →
      a.label = "CLIP " ++ toString (a.idx + 1) := by
  intro durs
  induction durs with
  | nil =>
    intro i total a ha _
    simp [buildClips] at ha
  | cons d ds ih =>
    intro i total a ha hlen
    simp only [buildClips] at ha
    by_cases h : MAX_TOTAL_DURATION - total ≤ 0
    · rw [if_pos h] at ha
      simp at ha
    · rw [if_neg h] at ha
      rcases List.mem_cons.mp ha with rfl | htail
      · have hnone : short_labels[i]? = none := List.getElem?_eq_none (by simpa using hlen)
        simp [labelAt, hnone]
      · exact ih (i + 1) (total + d) a htail hlen

/-- Concrete run of the acceptance loop on three 20-second clips with no
generated captions: all three clips are accepted untrimmed. -/
theorem buildClips_twenties :
    buildClips [] 0 0 [20, 20, 20] =
      [{ idx := 0, dur := 20, label := "CLIP 1" },
       { idx := 1, dur := 20, label := "CLIP 2" },
       { idx := 2, dur := 20, label := "CLIP 3" }] := by
  norm_num [buildClips, labelAt, MAX_TOTAL_DURATION]
  exact ⟨rfl, rfl, rfl⟩

/-- Concrete `compose_short` run used as a witness input: one 20-second
clip and no generated captions give one accepted clip with the
placeholder caption. -/
theorem compose_demo_accepted :
    (compose_short composeDemoOracle ["clip0.mp4"] none "final_short.mp4").accepted
      = [{ idx := 0, dur := 20, label := "CLIP 1" }] := by
  norm_num [compose_short, composeDemoOracle, buildClips, labelAt, MAX_TOTAL_DURATION]
  exact rfl

/-! ## Claim theorems -/

/-- C1: the claim says the finder accepts the six contract parameters and
that the pipeline's call passing `min_clips` succeeds.  In the code the
finder's signature has no `min_clips` parameter, while `main` passes one:
binding the call's keywords against the declared parameters raises
`TypeError`, so the invocation fails instead of yielding a Selection
Set. -/
theorem c1_finder_call_raises_type_error :
    bindKwargs search_youtube_param_names main_search_call_kwargs
      = Except.error PyError.typeError ∧
    search_youtube_param_names.contains "min_clips" = false :=
  ⟨rfl, rfl⟩

/-- C2: the claim says that after a successful render `compose_short`
returns the output path with the generated title attached.  In the code
`output_path` is a plain `str`, so the attribute assignment
`output_path.ai_generated_title = main_title` raises `AttributeError`
on every run that reaches it: here a run whose render succeeds ends in
`AttributeError`, not in a return. -/
theorem c2_compose_raises_after_render :
    (compose_short composeDemoOracle ["clip0.mp4"] none "final_short.mp4").result
      = Except.error PyError.attributeError := by
  norm_num [compose_short, composeDemoOracle, buildClips, labelAt, MAX_TOTAL_DURATION,
    str_setattr, Except.map]

/-- C3 counterexample: on clips of durations [20, 20, 20] with ceiling 58
the loop accepts all three clips (not exactly 2) and their total duration
is 60, exceeding the ceiling. -/
theorem c3_counterexample :
    (buildClips [] 0 0 [20, 20, 20]).length = 3 ∧
    ¬ (((buildClips [] 0 0 [20, 20, 20]).map Accepted.dur).sum ≤ 58) := by
  rw [buildClips_twenties]
  norm_num

/-- C3 amended: the Composer never accepts a further clip once the
accumulated duration of the previously accepted clips has reached the
ceiling (58s); but because the computed trim is discarded, each accepted
clip contributes its full duration, so the total can exceed the ceiling:
on [20, 20, 20] all three clips are accepted for a total of 60. -/
theorem c3_amended :
    (∀ (short_labels : List String) (durs : List ℚ) (k : ℕ),
        k < (buildClips short_labels 0 0 durs).length →
        (((buildClips short_labels 0 0 durs).take k).map Accepted.dur).sum < 58)
  ∧ (buildClips [] 0 0 [20, 20, 20]).length = 3
  ∧ ((buildClips [] 0 0 [20, 20, 20]).map Accepted.dur).sum = 60 := by
  refine ⟨fun sl durs k hk => ?_, ?_, ?_⟩
  · simpa [MAX_TOTAL_DURATION] using buildClips_total_lt sl durs 0 0 k hk
  · simp [buildClips_twenties]
  · rw [buildClips_twenties]
    norm_num

/-- C3 witness: the second accepted clip of the [20, 20, 20] run was
accepted while the accumulated duration (40) was still below the
ceiling. -/
theorem c3_amended_witness :
    (((buildClips [] 0 0 [20, 20, 20]).take 2).map Accepted.dur).sum < 58 :=
  c3_amended.1 [] [20, 20, 20] 2 (by simp [buildClips_twenties])

/-- C4: the claim says every accepted clip is trimmed to at most
`min(15, remainingBudget)` seconds of output.  The code computes that trim
but then rebuilds the clip from its path at full duration, so a single
20-second clip enters the output at 20 seconds although
`min(15, 58 - 0) = 15`. -/
theorem c4_trim_discarded :
    ((buildClips [] 0 0 [20]).map Accepted.dur) = [20] ∧
    ¬ ((20 : ℚ) ≤ min 15 (MAX_TOTAL_DURATION - 0)) := by
  constructor
  · norm_num [buildClips, MAX_TOTAL_DURATION]
  · norm_num [MAX_TOTAL_DURATION, min_def]

/-- C5: every member of a non-empty variant-B Selection Set — any
`max_clips`-long truncation of any shuffle of the filtered candidates —
has at least `min_likes` likes, a duration strictly between 0 and 58
seconds inclusive, a lowered title-and-tags string containing some
lowered query tag (case-insensitive substring match), and an id outside
the ledger loaded at start; the set has at most `max_clips` members; and
no duration-sum bound is enforced: a run returning two 58-second clips
(total 116) exists. -/
theorem c5_selection_filters :
    (∀ (tags : List String) (seen : Finset String) (min_likes max_clips : ℕ)
        (videos : List RawVideo) (shuffled : List Item),
        shuffled.Perm (filterVideos tags seen min_likes videos) →
        shuffled.take max_clips ≠ [] →
        (shuffled.take max_clips).length ≤ max_clips ∧
        ∀ it ∈ shuffled.take max_clips,
          min_likes ≤ it.likeCount ∧ 0 < it.duration ∧ it.duration ≤ 58 ∧
          it.videoId ∉ seen ∧
          ∃ v ∈ videos, it = mkItem v ∧
            ∃ t ∈ tags, pyIn (pyLower t) (tags_combined v) = true)
  ∧ ∃ (tags : List String) (seen : Finset String) (min_likes max_clips : ℕ)
      (videos : List RawVideo) (shuffled : List Item),
      shuffled.Perm (filterVideos tags seen min_likes videos) ∧
      58 < (((shuffled.take max_clips).map Item.duration).sum) := by
  constructor
  · intro tags seen min_likes max_clips videos shuffled hperm _hne
    refine ⟨List.length_take_le _ _, ?_⟩
    intro it hit
    have h1 : it ∈ filterVideos tags seen min_likes videos :=
      hperm.mem_iff.mp (List.mem_of_mem_take hit)
    rw [filterVideos, List.mem_map] at h1
    obtain ⟨v, hv, hmk⟩ := h1
    rw [List.mem_filter] at hv
    obtain ⟨hvmem, hkeep⟩ := hv
    simp only [keepVideo, Bool.and_eq_true, Bool.not_eq_true', Bool.or_eq_false_iff,
      decide_eq_false_iff_not, decide_eq_true_eq, List.any_eq_true, not_lt] at hkeep
    obtain ⟨⟨⟨hseen, hlikes⟩, hdur0, hdur58⟩, t, htmem, htin⟩ := hkeep
    subst hmk
    refine ⟨hlikes, Nat.pos_of_ne_zero hdur0, hdur58, hseen, v, hvmem, rfl, t, htmem, ?_⟩
    exact pyIn_pyLower t _ htin
  · exact ⟨["a"], ∅, 0, 2, demoVideos, filterVideos ["a"] ∅ 0 demoVideos,
      List.Perm.refl _, by decide⟩

/-- C5 witness: a concrete run over the two demo candidates returns at
most `max_clips = 2` members. -/
theorem c5_selection_filters_witness :
    ((filterVideos ["a"] ∅ 0 demoVideos).take 2).length ≤ 2 :=
  (c5_selection_filters.1 ["a"] ∅ 0 2 demoVideos (filterVideos ["a"] ∅ 0 demoVideos)
    (List.Perm.refl _) (by decide)).1

/-- C6 counterexample: `"PT2M1H"` does not match the spec's pattern
`PT#H#M#S` (the fields are out of order), yet the parser does not return
0 on it: `re.match` accepts the valid strict prefix `PT2M` and yields
120. -/
theorem c6_counterexample :
    specWellFormedIso "PT2M1H" = false ∧ parse_iso_duration "PT2M1H" = 120 := by
  decide

/-- C6 amended: the parser maps "PT1M2S" to 62, "PT45S" to 45, "PT2H" to
7200, treats absent H/M/S fields as 0 (also mid-string, "PT3H7S" and bare
"PT"), and returns 0 for every input that does not start with "PT"; but a
malformed string that does start with "PT" is parsed by its longest valid
prefix and can return a non-zero value. -/
theorem c6_parser_amended :
    parse_iso_duration "PT1M2S" = 62 ∧
    parse_iso_duration "PT45S" = 45 ∧
    parse_iso_duration "PT2H" = 7200 ∧
    parse_iso_duration "PT" = 0 ∧
    parse_iso_duration "PT3H7S" = 10807 ∧
    ∀ s : String, s.data.take 2 ≠ ['P', 'T'] → parse_iso_duration s = 0 := by
  refine ⟨by decide, by decide, by decide, by decide, by decide, ?_⟩
  intro s h
  unfold parse_iso_duration
  split
  · rename_i rest heq
    refine absurd ?_ h
    rw [heq]
    rfl
  · rfl

/-- C6 witness: a string that does not start with "PT" parses to 0. -/
theorem c6_parser_amended_witness : parse_iso_duration "junk" = 0 :=
  c6_parser_amended.2.2.2.2.2 "junk" (by decide)

/-- C7 counterexample: with the positive base size 1 and a text of length
exactly 2 × char_limit, the function returns 0, which is below
0.8 × base_size = 0.8 — the `int()` truncation breaks both the
"at least 0.8 × base_size" and the "never below 80%" clauses. -/
theorem c7_counterexample :
    text40.length = 2 * 20 ∧
    dynamic_font_size text40 1 1080 20 = 0 ∧
    ((0 : ℚ) < 8 / 10 * ((1 : ℕ) : ℚ)) := by
  refine ⟨rfl, ?_, by norm_num⟩
  norm_num [dynamic_font_size, min_def, show text40.length = 40 from rfl]

/-- C7 amended: text no longer than `char_limit` keeps `base_size`
unchanged; text of length exactly `2 × char_limit` (for positive limit
and base) yields `⌊0.9 × base_size⌋`, strictly below `base_size`; and for
every text the result exceeds `0.8 × base_size − 1` — truncation can dip
below 80% of the base size, but by less than one unit. -/
theorem c7_font_size_amended (text : String) (base_size max_width char_limit : ℕ) :
    (text.length ≤ char_limit →
       dynamic_font_size text base_size max_width char_limit = base_size)
  ∧ (0 < char_limit → 0 < base_size → text.length = 2 * char_limit →
       dynamic_font_size text base_size max_width char_limit
           = Int.floor ((9 * (base_size : ℚ)) / 10)
       ∧ dynamic_font_size text base_size max_width char_limit < base_size)
  ∧ (8 / 10 * (base_size : ℚ) - 1
       < ((dynamic_font_size text base_size max_width char_limit : ℤ) : ℚ)) := by
  refine ⟨fun h => by rw [dynamic_font_size, if_pos h], fun hcl hb hlen => ?_, ?_⟩
  · have hnot : ¬ text.length ≤ char_limit := by omega
    have hc : ((char_limit : ℚ)) ≠ 0 := Nat.cast_ne_zero.mpr (by omega)
    have hhalf : ((char_limit : ℚ)) / ((text.length : ℕ) : ℚ) = 1 / 2 := by
      rw [hlen]
      push_cast
      field_simp
      ring
    have harg : ((base_size : ℚ)) * (8 / 10 + 2 / 10 * min 1 (((char_limit : ℚ)) / ((text.length : ℕ) : ℚ)))
        = 9 * (base_size : ℚ) / 10 := by
      rw [hhalf]
      rw [min_def]
      norm_num
      ring
    have hval : dynamic_font_size text base_size max_width char_limit
        = Int.floor ((9 * (base_size : ℚ)) / 10) := by
      rw [dynamic_font_size, if_neg hnot, ← harg]
    refine ⟨hval, ?_⟩
    rw [hval]
    have : (9 * (base_size : ℚ)) / 10 < ((base_size : ℤ) : ℚ) := by
      push_cast
      have : (0 : ℚ) < (base_size : ℚ) := by exact_mod_cast hb
      linarith
    exact Int.floor_lt.mpr this
  · by_cases h : text.length ≤ char_limit
    · rw [dynamic_font_size, if_pos h]
      have h0 : (0 : ℚ) ≤ (base_size : ℚ) := Nat.cast_nonneg _
      push_cast
      linarith
    · rw [dynamic_font_size, if_neg h]
      set q : ℚ := ((char_limit : ℚ)) / ((text.length : ℕ) : ℚ) with hq
      have hq0 : 0 ≤ q := div_nonneg (Nat.cast_nonneg _) (Nat.cast_nonneg _)
      have hs0 : 0 ≤ min 1 q := le_min (by norm_num) hq0
      have hb0 : (0 : ℚ) ≤ (base_size : ℚ) := Nat.cast_nonneg _
      set x : ℚ := (base_size : ℚ) * (8 / 10 + 2 / 10 * min 1 q) with hx
      have hge : 8 / 10 * (base_size : ℚ) ≤ x := by
        rw [hx]
        nlinarith [mul_nonneg hb0 hs0]
      have hfl := Int.sub_one_lt_floor x
      show 8 / 10 * (base_size : ℚ) - 1 < ((Int.floor x : ℤ) : ℚ)
      linarith

/-- C7 witness: a 20-character text at the default character limit keeps
the base size 70 unchanged. -/
theorem c7_font_size_amended_witness :
    dynamic_font_size text20 70 1080 20 = 70 :=
  (c7_font_size_amended text20 70 1080 20).1 (by decide)

/-- C8: whenever caption generation returns fewer lines than there are
clips, every clip the composer processes at an index beyond the returned
captions is captioned with exactly the placeholder "CLIP n" for its
1-based position n. -/
theorem c8_caption_fallback (o : ComposeOracle) (clip_paths : List String)
    (labels : Option (List String)) (output_filename : String) (a : Accepted)
    (ha : a ∈ (compose_short o clip_paths labels output_filename).accepted)
    (hlen : (compose_short o clip_paths labels output_filename).short_labels.length ≤ a.idx) :
    a.label = "CLIP " ++ toString (a.idx + 1) :=
  label_of_mem_buildClips _ _ _ _ _ ha hlen

/-- C8 witness: in the demo run the caption generator returns no lines and
the single accepted clip carries the placeholder "CLIP 1". -/
theorem c8_caption_fallback_witness :
    ({ idx := 0, dur := 20, label := "CLIP 1" } : Accepted).label
      = "CLIP " ++ toString (({ idx := 0, dur := 20, label := "CLIP 1" } : Accepted).idx + 1) :=
  c8_caption_fallback composeDemoOracle ["clip0.mp4"] none "final_short.mp4"
    { idx := 0, dur := 20, label := "CLIP 1" }
    (by simp [compose_demo_accepted]) (by decide)

/-- C9: saving any set of video ids and loading the written file back
yields the same set, whatever order the ids were written or re-read in. -/
theorem c9_ledger_round_trip (video_ids : Finset String) (stored : List String)
    (hperm : stored.Perm (save_seen_videos video_ids)) :
    load_seen_videos (some stored) = video_ids := by
  have hload : load_seen_videos (some stored) = stored.toFinset := rfl
  rw [hload]
  ext a
  rw [List.mem_toFinset, hperm.mem_iff, save_seen_videos, Finset.mem_sort]

/-- C9 witness: the singleton ledger round-trips. -/
theorem c9_ledger_round_trip_witness :
    load_seen_videos (some ["a"]) = ({"a"} : Finset String) :=
  c9_ledger_round_trip {"a"} ["a"] (by simp [save_seen_videos, Finset.sort_singleton])

/-- C10: the `labels` parameter of `compose_short` is bound and never
read — two runs differing only in the labels argument produce identical
transcripts, captions, main title, accepted clips, and result. -/
theorem c10_labels_never_read (o : ComposeOracle) (clip_paths : List String)
    (labels1 labels2 : Option (List String)) (output_filename : String) :
    compose_short o clip_paths labels1 output_filename
      = compose_short o clip_paths labels2 output_filename := rfl

end Proauc
